import Mathlib

/-!
Verification of the iot-data-bridge event pipeline.

Shallow embedding of the pipeline stages of the repository:
mapping stage (`src/deploy/middleware-server/src/layers/mapping.py`),
mapping catalog (`src/deploy/middleware-server/src/catalogs/mapping_catalog.py`),
resolver (`src/deploy/middleware-server/src/layers/resolver.py`),
device catalog (`src/deploy/middleware-server/src/catalogs/device_catalog.py`),
egress transports (`src/middleware/src/layers/transports_signalr.py`,
`src/deploy/middleware-server/src/layers/transports.py`),
delivery logging (`src/middleware/src/layers/logging.py`) and the
device endpoint (`src/deploy/device/device.py`).

Python scalars are modelled exactly: ints as `Int`, floats as `Rat`
(exact for every literal appearing in the claims), strings as `String`,
booleans as `Bool`, `None` as a distinguished scalar.  Structured
(dict-shaped) values are finite association lists.  Fallible Python
operations (casts that raise `ValueError`/`TypeError`) return `Option`.
-/

/-- Python scalar values as they occur in a decoded JSON/YAML frame. -/
inductive PyValue where
  | vBool (b : Bool)
  | vInt (n : Int)
  | vFloat (q : ℚ)
  | vStr (s : String)
  | vNull
deriving DecidableEq, Repr

/-- Python structured values: a dict (association list, first binding wins
on lookup, as in a Python dict without duplicate keys) or a scalar. -/
inductive PyObj where
  | dict (entries : List (String × PyObj))
  | scalar (v : PyValue)
deriving Repr

/-- Python `d.get(k)`: value of the first binding of `k`, or `None` (here
`Option.none`) when the key is missing. -/
def dictGet (d : List (String × PyObj)) (k : String) : Option PyObj :=
  (d.find? (fun p => p.1 = k)).map (fun p => p.2)

/-- Python truthiness (`bool(x)`) of a value: `None`, `False`, zero, the
empty string and the empty dict are falsy; everything else is truthy. -/
def pyTruthy : PyObj → Bool
  | .scalar (.vBool b) => b
  | .scalar (.vInt n) => n != 0
  | .scalar (.vFloat q) => q != 0
  | .scalar (.vStr s) => s != ""
  | .scalar .vNull => false
  | .dict entries => !entries.isEmpty

/-- Truthiness of the result of a `d.get(k)` lookup: an absent key yields
Python `None`, which is falsy. -/
def optTruthy : Option PyObj → Bool
  | some v => pyTruthy v
  | none => false

/-- Lower-casing of one ASCII character, the effect of Python `str.lower()`
on the ASCII identifiers and keywords used by the bridge. -/
def asciiLowerChar (c : Char) : Char :=
  if 65 ≤ c.toNat ∧ c.toNat ≤ 90 then Char.ofNat (c.toNat + 32) else c

/-- Python `s.lower()` restricted to ASCII strings (all device ids,
catalog keys and keyword strings in the claims are ASCII). -/
def asciiLower (s : String) : String := String.mk (s.data.map asciiLowerChar)

/-- Digit run of Python `int(s)`: all characters must be decimal digits and
at least one digit must be present; accumulates the decimal value. -/
def digitsToNatAux (acc : Nat) : List Char → Option Nat
  | [] => some acc
  | c :: rest =>
      if c.isDigit then digitsToNatAux (acc * 10 + (c.toNat - 48)) rest
      else none

/-- Decimal digit-string to `Nat`; `none` when empty or when any character
is not a digit. -/
def digitsToNat : List Char → Option Nat
  | [] => none
  | l => digitsToNatAux 0 l

/-- Python `int(s)` on a string: an optional sign followed by decimal
digits; anything else raises `ValueError` (here `none`).  Python's
tolerance for surrounding whitespace and underscore separators is omitted;
no string in the claims uses either. -/
def parseIntChars : List Char → Option Int
  | '-' :: rest => (digitsToNat rest).map (fun n => -(n : Int))
  | '+' :: rest => (digitsToNat rest).map (fun n => (n : Int))
  | l => (digitsToNat l).map (fun n => (n : Int))

/-- Python `int(s)` for a string `s`. -/
def parseIntPy (s : String) : Option Int := parseIntChars s.data

/-- Fraction digits of a decimal literal: value scaled into a rational. -/
def fracDigitsToRat : List Char → Option ℚ
  | [] => some 0
  | l =>
      (digitsToNat l).map (fun n => mkRat (n : Int) (10 ^ l.length))

/-- Mantissa of Python `float(s)`: `digits[.digits]` with at least one
digit on one of the two sides. -/
def parseMantissa (l : List Char) : Option ℚ :=
  match l.splitOn '.' with
  | [intPart] => (digitsToNat intPart).map (fun n => (n : ℚ))
  | [intPart, fracPart] =>
      match intPart, fracPart with
      | [], [] => none
      | [], f => fracDigitsToRat f
      | i, f =>
          match digitsToNat i, fracDigitsToRat f with
          | some n, some q => some ((n : ℚ) + q)
          | _, _ => none
  | _ => none

/-- Signed mantissa of a decimal literal. -/
def parseSignedMantissa : List Char → Option ℚ
  | '-' :: rest => (parseMantissa rest).map (fun q => -q)
  | '+' :: rest => parseMantissa rest
  | l => parseMantissa l

/-- Signed decimal exponent of a scientific literal. -/
def parseExponent : List Char → Option Int
  | '-' :: rest => (digitsToNat rest).map (fun n => -(n : Int))
  | '+' :: rest => (digitsToNat rest).map (fun n => (n : Int))
  | l => (digitsToNat l).map (fun n => (n : Int))

/-- Python `float(s)` on a string: decimal or scientific notation
(`[sign]digits[.digits][(e|E)[sign]digits]`), exact-rational valued.
Python's whitespace tolerance and the special literals `inf`/`nan` are
omitted; no claim depends on them. -/
def parseFloatPy (s : String) : Option ℚ :=
  match s.data.splitOn 'e' with
  | [m] =>
      match m.splitOn 'E' with
      | [m1] => parseSignedMantissa m1
      | [m1, e1] =>
          match parseSignedMantissa m1, parseExponent e1 with
          | some q, some k => some (q * (10 : ℚ) ^ k)
          | _, _ => none
      | _ => none
  | [m, e] =>
      match parseSignedMantissa m, parseExponent e with
      | some q, some k => some (q * (10 : ℚ) ^ k)
      | _, _ => none
  | _ => none

/-- Truncation toward zero, the behaviour of Python `int(float)`. -/
def ratTruncToInt (q : ℚ) : Int := Int.tdiv q.num q.den

/-- Python `int(value)` applied to a decoded frame value: booleans become
0/1, ints pass through, floats truncate toward zero, strings are parsed as
decimal integers; `None` and dicts raise `TypeError` (here `none`). -/
def pyIntOf : PyObj → Option Int
  | .scalar (.vBool b) => some (if b then 1 else 0)
  | .scalar (.vInt n) => some n
  | .scalar (.vFloat q) => some (ratTruncToInt q)
  | .scalar (.vStr s) => parseIntPy s
  | .scalar .vNull => none
  | .dict _ => none

/-- Python `float(value)` applied to a decoded frame value. -/
def pyFloatOf : PyObj → Option ℚ
  | .scalar (.vBool b) => some (if b then 1 else 0)
  | .scalar (.vInt n) => some (n : ℚ)
  | .scalar (.vFloat q) => some q
  | .scalar (.vStr s) => parseFloatPy s
  | .scalar .vNull => none
  | .dict _ => none

/-- Rendering of a float by Python `str()`; integral values print with a
trailing `.0`, other rationals are approximated by their fraction form
(no claim depends on the non-integral rendering). -/
def floatRepr (q : ℚ) : String :=
  if q.den = 1 then toString q.num ++ ".0" else toString q

/-- Python `str(value)`: total stringification.  The dict rendering is
abbreviated; no claim depends on it. -/
def pyStr : PyObj → String
  | .scalar (.vBool true) => "True"
  | .scalar (.vBool false) => "False"
  | .scalar (.vInt n) => toString n
  | .scalar (.vFloat q) => floatRepr q
  | .scalar (.vStr s) => s
  | .scalar .vNull => "None"
  | .dict _ => "\x7b...\x7d"

/-- Strings recognized as true by the boolean cast of
`MappingLayer._cast_value` (`mapping.py` line 116). -/
def trueStrings : List String := ["true", "1", "yes", "on"]

/-- Embedding of `MappingLayer._cast_value` of
`src/deploy/middleware-server/src/layers/mapping.py` (lines 105-126):
dispatch on the rule's `value_type` string; `int`/`float`/`str` use the
Python builtin casts, `bool` maps strings through membership of the
lower-cased string in `('true','1','yes','on')` and every other value
through Python truthiness (`bool(value)`); an unknown type string returns
the value unchanged; a raised `ValueError`/`TypeError` yields `none`. -/
def castValue (value : PyObj) (value_type : String) : Option PyObj :=
  if value_type = "int" then (pyIntOf value).map (fun n => .scalar (.vInt n))
  else if value_type = "float" then (pyFloatOf value).map (fun q => .scalar (.vFloat q))
  else if value_type = "str" then some (.scalar (.vStr (pyStr value)))
  else if value_type = "bool" then
    match value with
    | .scalar (.vStr s) => some (.scalar (.vBool (trueStrings.contains (asciiLower s))))
    | v => some (.scalar (.vBool (pyTruthy v)))
  else some value

example : castValue (.scalar (.vStr "2")) "bool" = some (.scalar (.vBool false)) := rfl

example : castValue (.scalar (.vFloat (mkRat 75 2))) "int" = some (.scalar (.vInt 37)) := rfl

example : castValue (.scalar (.vStr "37.5")) "int" = none := rfl

/-- One record of the mapping catalog document
(`mapping_catalog.py` `MappingRule`, lines 13-23). -/
structure MappingRule where
  equip_tag : String
  message_id : String
  object : String
  value_type : String
deriving DecidableEq, Repr

/-- Python dict assignment `m[k] = v`: replaces the value of an existing
key in place, otherwise appends the binding. -/
def dictAssign (m : List ((String × String) × MappingRule))
    (k : String × String) (v : MappingRule) : List ((String × String) × MappingRule) :=
  if m.any (fun p => p.1 = k) then
    m.map (fun p => if p.1 = k then (k, v) else p)
  else m ++ [(k, v)]

/-- Embedding of `MappingCatalog.load` of
`src/deploy/middleware-server/src/catalogs/mapping_catalog.py`
(lines 34-61), applied to the already-parsed record sequence of the YAML
document: every record is written into the `mappings` dict with
`self.mappings[key] = rule`.  The function is total: no condition on the
records makes it fail (file-existence errors are outside this model). -/
def MappingCatalog.load (records : List MappingRule) : List ((String × String) × MappingRule) :=
  records.foldl (fun m r => dictAssign m (r.equip_tag, r.message_id) r) []

/-- Embedding of `MappingCatalog.get_mapping` (lines 63-66):
`self.mappings.get((equip_tag, message_id))`. -/
def MappingCatalog.get_mapping (m : List ((String × String) × MappingRule))
    (equip_tag message_id : String) : Option MappingRule :=
  (m.find? (fun p => p.1 = (equip_tag, message_id))).map (fun p => p.2)

/-- A mapping-catalog lookup key taken from a decoded frame: the dict keys
are `(str, str)` pairs, so a lookup succeeds only when the frame field is
a string (any non-string Python value compares unequal to every key). -/
def keyStringOf : PyObj → Option String
  | .scalar (.vStr s) => some s
  | _ => none

/-- Lookup of a rule from the (possibly non-string) frame fields, as
performed by `self.mapping_catalog.get_mapping(equip_tag, message_id)`. -/
def lookupRule (m : List ((String × String) × MappingRule)) (et mid : PyObj) :
    Option MappingRule :=
  match keyStringOf et, keyStringOf mid with
  | some a, some b => MappingCatalog.get_mapping m a b
  | _, _ => none

/-- The `IngressEvent` DTO (`models/events.py`): trace id and the decoded
frame dict. -/
structure IngressEvent where
  trace_id : String
  raw : List (String × PyObj)
deriving Repr

/-- The `MappedEvent` DTO (`models/events.py`). -/
structure MappedEvent where
  trace_id : String
  object : String
  value : PyObj
  value_type : String
deriving Repr

/-- Observable outcome of one `MappingLayer.map_event` call: the returned
value, the per-call increments of the `processed` and `error` counters of
the stage, and the `MappedEvent`s passed to the resolver callback. -/
structure MapOutcome where
  result : Option MappedEvent
  processedInc : Nat
  errorInc : Nat
  resolverCalls : List MappedEvent
deriving Repr

/-- The value strings of the `ValueType` enum of
`src/deploy/middleware-server/src/models/events.py`; `ValueType(s)` for
any other string raises `ValueError`. -/
def validValueTypes : List String := ["int", "float", "str", "bool"]

/-- Drop outcome shared by every failure path of `map_event`: `None` is
returned, the error counter is incremented once, the resolver callback is
not invoked. -/
def mapDrop : MapOutcome := ⟨none, 1, 1, []⟩

/-- The `value is not None` conjunct of the required-field check of
`map_event` (line 48): a missing `VALUE` key yields Python `None`, and a
frame whose `VALUE` is literally `null` also fails; every other value,
including the falsy `0`, `0.0`, `False` and `""`, passes. -/
def valueIsPresent : Option PyObj → Bool
  | some (.scalar .vNull) => false
  | some _ => true
  | none => false

/-- Embedding of `MappingLayer.map_event` of
`src/deploy/middleware-server/src/layers/mapping.py` (lines 34-103).
Reads `raw.get('payload', {})` (a non-dict payload raises inside the
`try`, landing in the catch-all `except` path), validates
`all([equip_tag, message_id, value is not None])` by Python truthiness,
looks up the rule, casts the value, and builds the `MappedEvent` (where
`ValueType(rule.value_type)` raises for a type string outside the enum,
again landing in the `except` path).  Every failure path increments the
error counter once and returns `None`; the resolver callback is awaited
exactly on success. -/
def MappingLayer.map_event (catalog : List ((String × String) × MappingRule))
    (event : IngressEvent) : MapOutcome :=
  match (dictGet event.raw "payload").getD (.dict []) with
  | .scalar _ => mapDrop
  | .dict payload =>
    let equip_tag := dictGet payload "Equip.Tag"
    let message_id := dictGet payload "Message.ID"
    let value? := dictGet payload "VALUE"
    if !(optTruthy equip_tag && optTruthy message_id && valueIsPresent value?) then mapDrop
    else
      match equip_tag, message_id, value? with
      | some et, some mid, some value =>
        match lookupRule catalog et mid with
        | none => mapDrop
        | some rule =>
          match castValue value rule.value_type with
          | none => mapDrop
          | some casted =>
            if validValueTypes.contains rule.value_type then
              let m : MappedEvent := ⟨event.trace_id, rule.object, casted, rule.value_type⟩
              ⟨some m, 1, 0, [m]⟩
            else mapDrop
      | _, _, _ => mapDrop

/-- The device catalog's `object → devices` table
(`device_catalog.py` `self.object_to_devices`). -/
structure DeviceCatalog where
  object_to_devices : List (String × List String)
deriving Repr

/-- Embedding of `DeviceCatalog.get_devices_for_object` of
`src/deploy/middleware-server/src/catalogs/device_catalog.py`
(lines 70-72): `self.object_to_devices.get(object_name, [])`. -/
def DeviceCatalog.get_devices_for_object (c : DeviceCatalog) (object_name : String) :
    List String :=
  ((c.object_to_devices.find? (fun p => p.1 = object_name)).map (fun p => p.2)).getD []

/-- The `ResolvedEvent` DTO (`models/events.py`). -/
structure ResolvedEvent where
  trace_id : String
  object : String
  value : PyObj
  target_devices : List String
deriving Repr

/-- Observable outcome of one `ResolverLayer.resolve_event` call: returned
value, counter increments, and the `ResolvedEvent`s forwarded to the
transports callback. -/
structure ResolveOutcome where
  result : Option ResolvedEvent
  processedInc : Nat
  errorInc : Nat
  transportsCalls : List ResolvedEvent
deriving Repr

/-- Embedding of `ResolverLayer.resolve_event` of
`src/deploy/middleware-server/src/layers/resolver.py` (lines 39-85):
increments `processed`, looks up the devices for the object; an empty
list (`if not target_devices`) increments the error counter and returns
`None`; otherwise the `ResolvedEvent` copies `trace_id`, `object` and
`value` unchanged and carries the catalog's device list, is forwarded to
the transports callback and returned. -/
def ResolverLayer.resolve_event (catalog : DeviceCatalog) (event : MappedEvent) :
    ResolveOutcome :=
  let target_devices := catalog.get_devices_for_object event.object
  if target_devices.isEmpty then ⟨none, 1, 1, []⟩
  else
    let r : ResolvedEvent := ⟨event.trace_id, event.object, event.value, target_devices⟩
    ⟨some r, 1, 0, [r]⟩

/-- Delay schedule of the exponential-backoff reconnection loop
(`SignalRTransport._reconnect_loop`, `transports_signalr.py` lines
213-224, and identically `SignalRInputHandler._reconnect_loop`,
`input_signalr.py`).  `delay` starts at the given value; each iteration
sleeps `delay`, then attempts a reconnect; on success the loop task
returns (a later reconnection spawns a fresh loop, so the schedule starts
again at 1); on failure `delay = min(delay * 2, 30)`.  The argument list
gives the outcome of each attempt (`true` = reconnect succeeded); the
result is the sequence of delays slept, in order. -/
def reconnectDelays (delay : Nat) : List Bool → List Nat
  | [] => []
  | true :: _ => [delay]
  | false :: rest => delay :: reconnectDelays (min (delay * 2) 30) rest

/-- One run of the reconnect loop as spawned by `_attempt_reconnection`:
the local `delay` variable is initialized to 1. -/
def reconnectLoop (outcomes : List Bool) : List Nat := reconnectDelays 1 outcomes

/-- The `DeviceIngestLog` record handed to the logging layer for each
successful per-device send (`models/events.py`). -/
structure DeviceIngestLog where
  trace_id : String
  device_id : String
  object : String
  value : PyObj
deriving Repr

/-- Observable outcome of one `SignalRTransport.send_to_device` call:
whether it reported success, how many raw send attempts it made and how
many forced reconnects it performed. -/
structure SendOutcome where
  ok : Bool
  attempts : Nat
  reconnects : Nat
deriving DecidableEq, Repr

/-- Embedding of `SignalRTransport.send_to_device` of
`src/middleware/src/layers/transports_signalr.py` (lines 107-130): a
first `_try_send_once`; when it succeeds the call returns `True` after one
attempt and no reconnect; when it fails the client performs one
`_restart_connection` (the forced reconnect) and exactly one retry, and
returns the retry's outcome.  `a1`/`a2` are the outcomes of the first and
second raw attempt. -/
def SignalRTransport.send_to_device (a1 a2 : Bool) : SendOutcome :=
  if a1 then ⟨true, 1, 0⟩ else ⟨a2, 2, 1⟩

/-- Observable outcome of one `TransportsLayer.send_to_devices` call
(`transports_signalr.py` lines 311-378): success/error counters, the
`DeviceIngestLog` records emitted through the logging callback (one per
successful send, in send order) and the devices for which a delivery
failure was recorded (the per-device warning log). -/
structure SendAllOutcome where
  successCount : Nat
  errorCount : Nat
  ingestLogs : List DeviceIngestLog
  failures : List String
deriving Repr

/-- Sequential per-device loop of `TransportsLayer.send_to_devices`:
devices are taken in the order of `event.target_devices`; each device's
send outcome is decided by its own two attempt outcomes (`oracle d`); a
success appends a `DeviceIngestLog` for that device, a failure records a
delivery failure for that device only, and the loop continues with the
remaining devices either way. -/
def sendLoop (trace obj : String) (value : PyObj) (oracle : String → Bool × Bool) :
    List String → SendAllOutcome
  | [] => ⟨0, 0, [], []⟩
  | d :: rest =>
      let oc := SignalRTransport.send_to_device (oracle d).1 (oracle d).2
      let tail := sendLoop trace obj value oracle rest
      if oc.ok then
        ⟨tail.successCount + 1, tail.errorCount,
          ⟨trace, d, obj, value⟩ :: tail.ingestLogs, tail.failures⟩
      else
        ⟨tail.successCount, tail.errorCount + 1, tail.ingestLogs, d :: tail.failures⟩

/-- Embedding of `TransportsLayer.send_to_devices` of
`src/middleware/src/layers/transports_signalr.py` (lines 311-378): one
`DeviceTarget` per element of `event.target_devices` (no filtering in the
SignalR fork), then the sequential send loop.  `oracle d` gives the
outcomes of the two raw send attempts available to device `d`. -/
def TransportsLayer.send_to_devices (event : ResolvedEvent)
    (oracle : String → Bool × Bool) : SendAllOutcome :=
  sendLoop event.trace_id event.object event.value oracle event.target_devices

/-- Wall-clock timestamp as used by `datetime.now().strftime(...)`. -/
structure DateTime where
  year : Nat
  month : Nat
  day : Nat
  hour : Nat
  minute : Nat
  second : Nat
deriving Repr

/-- Zero-padding to two digits, as `%m`, `%d`, `%H`, `%M`, `%S` do. -/
def pad2 (n : Nat) : String :=
  if n < 10 then "0" ++ toString n else toString n

/-- Zero-padding to four digits, as `%Y` does. -/
def pad4 (n : Nat) : String :=
  if n < 10 then "000" ++ toString n
  else if n < 100 then "00" ++ toString n
  else if n < 1000 then "0" ++ toString n
  else toString n

/-- Python `datetime.strftime("%Y-%m-%d %H:%M:%S")`. -/
def strftimeYmdHms (t : DateTime) : String :=
  pad4 t.year ++ "-" ++ pad2 t.month ++ "-" ++ pad2 t.day ++ " " ++
    pad2 t.hour ++ ":" ++ pad2 t.minute ++ ":" ++ pad2 t.second

/-- Embedding of `OptimizedLoggingLayer.log_device_ingest` of
`src/middleware/src/layers/logging.py` (lines 106-123): the delivery-log
line appended (via the batch queue) for one successful per-device send;
`now` is the wall-clock time captured by `datetime.now()` at the call. -/
def OptimizedLoggingLayer.log_device_ingest (now : DateTime) (event : DeviceIngestLog) :
    String :=
  strftimeYmdHms now ++ " | INFO | Data sent | device_id=" ++ event.device_id ++
    " | object=" ++ event.object ++ " | value=" ++ pyStr event.value

/-- Embedding of the topic computation of `MQTTTransport.send_to_device`
of `src/deploy/middleware-server/src/layers/transports.py` (line 41):
`device_config.get('topic', f"devices/-device_id-/ingress")` — the device
id is interpolated verbatim, with no lower-casing. -/
def MQTTTransport.publishTopic (configTopic : Option String) (device_id : String) :
    String :=
  configTopic.getD ("devices/" ++ device_id ++ "/ingress")

/-- Embedding of the subscription topic default of the repository's own
device endpoint, `IoTDevice.start` of `src/deploy/device/device.py`
(line 33): `mqtt_config.get('topic', f"devices/-device_id.lower()-/ingress")`. -/
def IoTDevice.subscribeTopic (configTopic : Option String) (device_id : String) :
    String :=
  configTopic.getD ("devices/" ++ asciiLower device_id ++ "/ingress")

/-! ## Claim theorems -/

lemma resolve_event_empty (catalog : DeviceCatalog) (event : MappedEvent)
    (h : catalog.get_devices_for_object event.object = []) :
    ResolverLayer.resolve_event catalog event = ⟨none, 1, 1, []⟩ := by
  unfold ResolverLayer.resolve_event
  simp [h]

lemma resolve_event_nonempty (catalog : DeviceCatalog) (event : MappedEvent)
    (h : catalog.get_devices_for_object event.object ≠ []) :
    ResolverLayer.resolve_event catalog event =
      ⟨some ⟨event.trace_id, event.object, event.value,
          catalog.get_devices_for_object event.object⟩, 1, 0,
        [⟨event.trace_id, event.object, event.value,
          catalog.get_devices_for_object event.object⟩]⟩ := by
  unfold ResolverLayer.resolve_event
  simp [List.isEmpty_iff, h]

/-- C1: `resolve_event` returns a `ResolvedEvent` iff the device catalog's
`devices_for(object)` is non-empty; on the empty side it drops the event
and increments the error counter; on the success side the `ResolvedEvent`
carries exactly the catalog's device list for the object (same list, same
order) and copies `trace_id`, `object` and `value` unchanged from the
`MappedEvent`. -/
theorem C1_resolver_contract (catalog : DeviceCatalog) (event : MappedEvent) :
    ((∃ r, (ResolverLayer.resolve_event catalog event).result = some r) ↔
      catalog.get_devices_for_object event.object ≠ []) ∧
    ((ResolverLayer.resolve_event catalog event).result = none →
      (ResolverLayer.resolve_event catalog event).errorInc = 1) ∧
    (∀ r, (ResolverLayer.resolve_event catalog event).result = some r →
      r.target_devices = catalog.get_devices_for_object event.object ∧
      r.trace_id = event.trace_id ∧ r.object = event.object ∧
      r.value = event.value ∧
      (ResolverLayer.resolve_event catalog event).errorInc = 0) := by
  by_cases h : catalog.get_devices_for_object event.object = []
  · rw [resolve_event_empty catalog event h]
    refine ⟨?_, fun _ => rfl, ?_⟩
    · simp [h]
    · intro r hr
      exact Option.noConfusion hr
  · rw [resolve_event_nonempty catalog event h]
    refine ⟨?_, ?_, ?_⟩
    · exact ⟨fun _ => h, fun _ => ⟨_, rfl⟩⟩
    · intro hc
      exact Option.noConfusion hc
    · intro r hr
      cases hr
      exact ⟨rfl, rfl, rfl, rfl, rfl⟩

/-- Demo device catalog for the witness: one object with two devices. -/
def demoDeviceCatalog : DeviceCatalog := ⟨[("GPS.LAT", ["VM-A", "VM-B"])]⟩

/-- Demo mapped event for the witness. -/
def demoMapped : MappedEvent :=
  ⟨"t1", "GPS.LAT", .scalar (.vFloat (mkRat 375665 10000)), "float"⟩

theorem C1_resolver_contract_witness :
    (ResolverLayer.resolve_event demoDeviceCatalog demoMapped).errorInc = 0 ∧
    (⟨"t1", "GPS.LAT", .scalar (.vFloat (mkRat 375665 10000)),
        ["VM-A", "VM-B"]⟩ : ResolvedEvent).target_devices =
      demoDeviceCatalog.get_devices_for_object demoMapped.object := by
  have h := C1_resolver_contract demoDeviceCatalog demoMapped
  have h2 := h.2.2 ⟨"t1", "GPS.LAT", .scalar (.vFloat (mkRat 375665 10000)),
      ["VM-A", "VM-B"]⟩ rfl
  exact ⟨h2.2.2.2.2, h2.1⟩

/-- C9: the deploy-fork MQTT egress publishes, for a device whose profile
does not override the topic, to `devices/<device_id>/ingress` with the
device id interpolated verbatim (no lower-casing), while the repository's
own device endpoint subscribes by default to the lower-cased topic
`devices/<device_id.lower()>/ingress`; for the device id `VM-A` the two
topics differ, so the published frame never reaches the subscriber. -/
theorem C9_mqtt_topic_not_lowercased :
    MQTTTransport.publishTopic none "VM-A" = "devices/VM-A/ingress" ∧
    IoTDevice.subscribeTopic none "VM-A" = "devices/vm-a/ingress" ∧
    (MQTTTransport.publishTopic none "VM-A" ==
      IoTDevice.subscribeTopic none "VM-A") = false := by
  exact ⟨rfl, rfl, by decide⟩

/-- First of two mapping records sharing the key `(GPS001, GLL001)`. -/
def dupRuleA : MappingRule := ⟨"GPS001", "GLL001", "GPS.LAT", "float"⟩

/-- Second record with the same key but a different object and type. -/
def dupRuleB : MappingRule := ⟨"GPS001", "GLL001", "GPS.LON", "int"⟩

/-- C5 counterexample: loading a document whose two records share the key
`(GPS001, GLL001)` does not fail — `MappingCatalog.load` is a total
function of the record sequence (the only `raise` in `load` concerns a
missing file) — and the resulting catalog silently keeps exactly the
second rule for that key. -/
theorem C5_counterexample_duplicate_keys_not_fatal :
    MappingCatalog.load [dupRuleA, dupRuleB] = [(("GPS001", "GLL001"), dupRuleB)] ∧
    MappingCatalog.get_mapping (MappingCatalog.load [dupRuleA, dupRuleB])
      "GPS001" "GLL001" = some dupRuleB := ⟨rfl, rfl⟩

/-- C5 amended: loading a mapping catalog document containing two records
with the same `(equip_tag, message_id)` key succeeds, and the resulting
catalog maps the key to the later record — the dict assignment
`self.mappings[key] = rule` silently overwrites, last record wins. -/
theorem C5_amended_duplicate_keys_last_wins (et mid o1 t1 o2 t2 : String) :
    MappingCatalog.get_mapping
      (MappingCatalog.load [⟨et, mid, o1, t1⟩, ⟨et, mid, o2, t2⟩]) et mid =
      some ⟨et, mid, o2, t2⟩ := by
  simp [MappingCatalog.load, MappingCatalog.get_mapping, dictAssign, List.foldl]

lemma reconnectDelays_cap (d : Nat) (hd : d ≤ 30) (outcomes : List Bool) :
    ∀ v ∈ reconnectDelays d outcomes, v ≤ 30 := by
  induction outcomes generalizing d with
  | nil => intro v hv; cases hv
  | cons o rest ih =>
      intro v hv
      cases o with
      | true =>
          rcases List.mem_cons.mp hv with h | h
          · exact h ▸ hd
          · cases h
      | false =>
          rcases List.mem_cons.mp hv with h | h
          · exact h ▸ hd
          · exact ih (min (d * 2) 30) (Nat.min_le_right _ _) v h

lemma reconnectDelays_step (d : Nat) (outcomes : List Bool) :
    ∀ i v w, (reconnectDelays d outcomes).get? i = some v →
      (reconnectDelays d outcomes).get? (i + 1) = some w →
      w = min (v * 2) 30 := by
  induction outcomes generalizing d with
  | nil => intro i v w hv _; simp [reconnectDelays] at hv
  | cons o rest ih =>
      intro i v w hv hw
      cases o with
      | true =>
          cases i with
          | zero => simp only [reconnectDelays, List.get?_cons_succ] at hw; simp at hw
          | succ j => simp only [reconnectDelays, List.get?_cons_succ] at hv; simp at hv
      | false =>
          cases i with
          | zero =>
              simp only [reconnectDelays, List.get?_cons_zero, Option.some.injEq] at hv
              simp only [reconnectDelays, List.get?_cons_succ] at hw
              cases rest with
              | nil => simp [reconnectDelays] at hw
              | cons o2 rest2 =>
                  cases o2 with
                  | true =>
                      simp only [reconnectDelays, List.get?_cons_zero,
                        Option.some.injEq] at hw
                      rw [← hv, ← hw]
                  | false =>
                      simp only [reconnectDelays, List.get?_cons_zero,
                        Option.some.injEq] at hw
                      rw [← hv, ← hw]
          | succ j =>
              simp only [reconnectDelays, List.get?_cons_succ] at hv hw
              exact ih (min (d * 2) 30) j v w hv hw

/-- C6: every run of the reconnection loop (one task spawned by
`_attempt_reconnection`, in the egress transport and identically in the
ingress client) sleeps 1 second before the first attempt — so the
schedule restarts at 1 second after any successful reconnection, since a
later connection loss spawns a fresh run —, after each failed attempt the
next delay is the doubled previous delay capped at 30 seconds, no delay
ever exceeds 30 seconds, and consecutive delays are non-decreasing. -/
theorem C6_backoff_schedule (outcomes : List Bool) :
    (∀ o rest, (reconnectLoop (o :: rest)).get? 0 = some 1) ∧
    (∀ i v w, (reconnectLoop outcomes).get? i = some v →
      (reconnectLoop outcomes).get? (i + 1) = some w → w = min (v * 2) 30) ∧
    (∀ v ∈ reconnectLoop outcomes, v ≤ 30) ∧
    (∀ i v w, (reconnectLoop outcomes).get? i = some v →
      (reconnectLoop outcomes).get? (i + 1) = some w → v ≤ w) := by
  refine ⟨?_, ?_, ?_, ?_⟩
  · intro o rest
    cases o with
    | true => rfl
    | false => rfl
  · exact fun i v w hv hw => reconnectDelays_step 1 outcomes i v w hv hw
  · exact reconnectDelays_cap 1 (by omega) outcomes
  · intro i v w hv hw
    have hcap : v ≤ 30 :=
      reconnectDelays_cap 1 (by omega) outcomes v (List.get?_mem hv)
    have hstep := reconnectDelays_step 1 outcomes i v w hv hw
    rw [hstep]
    exact Nat.le_min.mpr ⟨by omega, hcap⟩

theorem C6_backoff_schedule_witness :
    (reconnectLoop [false, false, false, false, false, true]).get? 0 = some 1 ∧
    (30 : Nat) = min (16 * 2) 30 ∧ (16 : Nat) ≤ 30 ∧
    reconnectLoop [false, false, false, false, false, true] = [1, 2, 4, 8, 16, 30] := by
  have h := C6_backoff_schedule [false, false, false, false, false, true]
  exact ⟨h.1 false [false, false, false, false, true],
    h.2.1 4 16 30 (by decide) (by decide),
    h.2.2.1 16 (by decide),
    by decide⟩

lemma sendLoop_ingestLogs (trace obj : String) (value : PyObj)
    (oracle : String → Bool × Bool) (devices : List String) :
    (sendLoop trace obj value oracle devices).ingestLogs =
      (devices.filter
        (fun d => (SignalRTransport.send_to_device (oracle d).1 (oracle d).2).ok)).map
        (fun d => ⟨trace, d, obj, value⟩) := by
  induction devices with
  | nil => rfl
  | cons d rest ih =>
      by_cases h : (SignalRTransport.send_to_device (oracle d).1 (oracle d).2).ok
      · simp [sendLoop, h, ih]
      · simp [sendLoop, h, ih]

lemma sendLoop_failures (trace obj : String) (value : PyObj)
    (oracle : String → Bool × Bool) (devices : List String) :
    (sendLoop trace obj value oracle devices).failures =
      devices.filter
        (fun d => !(SignalRTransport.send_to_device (oracle d).1 (oracle d).2).ok) := by
  induction devices with
  | nil => rfl
  | cons d rest ih =>
      by_cases h : (SignalRTransport.send_to_device (oracle d).1 (oracle d).2).ok
      · simp [sendLoop, h, ih]
      · simp [sendLoop, h, ih]

lemma sendLoop_counts (trace obj : String) (value : PyObj)
    (oracle : String → Bool × Bool) (devices : List String) :
    (sendLoop trace obj value oracle devices).successCount +
      (sendLoop trace obj value oracle devices).errorCount = devices.length := by
  induction devices with
  | nil => rfl
  | cons d rest ih =>
      by_cases h : (SignalRTransport.send_to_device (oracle d).1 (oracle d).2).ok
      · simp only [sendLoop, h, if_true, List.length_cons]
        omega
      · simp only [sendLoop, h, if_false, List.length_cons, Bool.false_eq_true]
        omega

/-- C7: when the first raw send attempt for a `(device, event)` pair fails,
`send_to_device` performs exactly one forced reconnect and exactly one
retry and reports the retry's outcome (giving up if it fails too); a first
successful attempt means one attempt and no reconnect; at the event level
every device of `target_devices` is attempted (success and failure counts
sum to the device count), each device's outcome is a function of its own
attempt outcomes only, and a delivery failure is recorded exactly for the
devices whose own send failed. -/
theorem C7_send_retry_independent (event : ResolvedEvent)
    (oracle : String → Bool × Bool) (a2 : Bool) :
    SignalRTransport.send_to_device false a2 = ⟨a2, 2, 1⟩ ∧
    SignalRTransport.send_to_device true a2 = ⟨true, 1, 0⟩ ∧
    (TransportsLayer.send_to_devices event oracle).failures =
      event.target_devices.filter
        (fun d => !(SignalRTransport.send_to_device (oracle d).1 (oracle d).2).ok) ∧
    (TransportsLayer.send_to_devices event oracle).successCount +
      (TransportsLayer.send_to_devices event oracle).errorCount =
      event.target_devices.length := by
  refine ⟨rfl, rfl, ?_, ?_⟩
  · exact sendLoop_failures event.trace_id event.object event.value oracle
      event.target_devices
  · exact sendLoop_counts event.trace_id event.object event.value oracle
      event.target_devices

/-- C8: a `DeviceIngestLog` record is handed to the delivery log exactly
for the devices whose per-device send succeeded — one record per
successful send, in send order, none for a failed send — its `device_id`
is always an element of the `ResolvedEvent`'s device list, and
`log_device_ingest` renders each record as
`<YYYY-MM-DD HH:MM:SS> | INFO | Data sent | device_id=<id> | object=<obj> | value=<v>`. -/
theorem C8_delivery_log_records (event : ResolvedEvent)
    (oracle : String → Bool × Bool) (now : DateTime) (l : DeviceIngestLog) :
    (TransportsLayer.send_to_devices event oracle).ingestLogs =
      (event.target_devices.filter
        (fun d => (SignalRTransport.send_to_device (oracle d).1 (oracle d).2).ok)).map
        (fun d => ⟨event.trace_id, d, event.object, event.value⟩) ∧
    (∀ r ∈ (TransportsLayer.send_to_devices event oracle).ingestLogs,
      r.device_id ∈ event.target_devices) ∧
    OptimizedLoggingLayer.log_device_ingest now l =
      strftimeYmdHms now ++ " | INFO | Data sent | device_id=" ++ l.device_id ++
        " | object=" ++ l.object ++ " | value=" ++ pyStr l.value ∧
    OptimizedLoggingLayer.log_device_ingest ⟨2025, 1, 2, 3, 4, 5⟩
        ⟨"t1", "VM-A", "GPS.LAT", .scalar (.vStr "37.5665")⟩ =
      "2025-01-02 03:04:05 | INFO | Data sent | device_id=VM-A | object=GPS.LAT | value=37.5665" := by
  refine ⟨sendLoop_ingestLogs event.trace_id event.object event.value oracle
    event.target_devices, ?_, rfl, rfl⟩
  intro r hr
  unfold TransportsLayer.send_to_devices at hr
  rw [sendLoop_ingestLogs] at hr
  rcases List.mem_map.mp hr with ⟨d, hd, hrd⟩
  rw [← hrd]
  exact List.mem_of_mem_filter hd

theorem C8_delivery_log_records_witness :
    (TransportsLayer.send_to_devices
        ⟨"t1", "GPS.LAT", .scalar (.vStr "37.5665"), ["VM-A", "VM-B"]⟩
        (fun d => (d = "VM-A", false))).ingestLogs =
      [⟨"t1", "VM-A", "GPS.LAT", .scalar (.vStr "37.5665")⟩] ∧
    ("VM-A" : String) ∈
      (⟨"t1", "GPS.LAT", .scalar (.vStr "37.5665"), ["VM-A", "VM-B"]⟩ :
        ResolvedEvent).target_devices := by
  have h := C8_delivery_log_records
    ⟨"t1", "GPS.LAT", .scalar (.vStr "37.5665"), ["VM-A", "VM-B"]⟩
    (fun d => (d = "VM-A", false)) ⟨2025, 1, 2, 3, 4, 5⟩
    ⟨"t1", "VM-A", "GPS.LAT", .scalar (.vStr "37.5665")⟩
  refine ⟨?_, ?_⟩
  · rw [h.1]
    rfl
  · exact h.2.1 ⟨"t1", "VM-A", "GPS.LAT", .scalar (.vStr "37.5665")⟩ (by rw [h.1]; exact List.mem_singleton.mpr rfl)

lemma map_event_cases (catalog : List ((String × String) × MappingRule))
    (event : IngressEvent) :
    MappingLayer.map_event catalog event = mapDrop ∨
    ∃ m, MappingLayer.map_event catalog event = ⟨some m, 1, 0, [m]⟩ := by
  unfold MappingLayer.map_event
  dsimp only
  repeat' split
  all_goals first
    | exact Or.inl rfl
    | exact Or.inr ⟨_, rfl⟩

/-- C4: every drop path of `map_event` (invalid payload, unmapped key,
coercion failure, or an exception reaching the catch-all handler) is
non-fatal: the call returns `None`, increments the stage error counter
exactly once, and does not invoke the downstream resolver callback; the
processed counter is always incremented exactly once; a successful call
increments no error and forwards exactly the produced `MappedEvent`; and
a frame whose payload lacks any of `Equip.Tag`, `Message.ID` or `VALUE`
never produces a `MappedEvent`. -/
theorem C4_mapper_drops_nonfatal (catalog : List ((String × String) × MappingRule))
    (event : IngressEvent) :
    (MappingLayer.map_event catalog event).processedInc = 1 ∧
    ((MappingLayer.map_event catalog event).result = none →
      (MappingLayer.map_event catalog event).errorInc = 1 ∧
      (MappingLayer.map_event catalog event).resolverCalls = []) ∧
    (∀ m, (MappingLayer.map_event catalog event).result = some m →
      (MappingLayer.map_event catalog event).errorInc = 0 ∧
      (MappingLayer.map_event catalog event).resolverCalls = [m]) ∧
    (∀ payload, dictGet event.raw "payload" = some (.dict payload) →
      (dictGet payload "Equip.Tag" = none ∨ dictGet payload "Message.ID" = none ∨
        dictGet payload "VALUE" = none) →
      (MappingLayer.map_event catalog event).result = none) := by
  refine ⟨?_, ?_, ?_, ?_⟩
  · rcases map_event_cases catalog event with h | ⟨m, h⟩ <;> simp [h, mapDrop]
  · intro hn
    rcases map_event_cases catalog event with h | ⟨m, h⟩
    · rw [h]; exact ⟨rfl, rfl⟩
    · rw [h] at hn; exact Option.noConfusion hn
  · intro m hm
    rcases map_event_cases catalog event with h | ⟨m2, h⟩
    · rw [h] at hm; exact Option.noConfusion hm
    · rw [h] at hm ⊢
      cases hm
      exact ⟨rfl, rfl⟩
  · intro payload hp hmiss
    unfold MappingLayer.map_event
    rw [hp]
    rcases hmiss with h | h | h
    · simp [h, optTruthy, mapDrop]
    · simp [h, optTruthy, mapDrop]
    · simp [h, valueIsPresent, mapDrop]

/-- Frame whose payload lacks the `Equip.Tag` field entirely. -/
def frameNoTag : IngressEvent :=
  ⟨"t4", [("header", .dict []),
    ("payload", .dict [("Message.ID", .scalar (.vStr "M1")),
      ("VALUE", .scalar (.vInt 5))])]⟩

theorem C4_mapper_drops_nonfatal_witness :
    (MappingLayer.map_event [] frameNoTag).result = none ∧
    (MappingLayer.map_event [] frameNoTag).errorInc = 1 ∧
    (MappingLayer.map_event [] frameNoTag).resolverCalls = [] := by
  have h := C4_mapper_drops_nonfatal [] frameNoTag
  have hres := h.2.2.2
    [("Message.ID", .scalar (.vStr "M1")), ("VALUE", .scalar (.vInt 5))]
    rfl (Or.inl rfl)
  exact ⟨hres, (h.2.1 hres).1, (h.2.1 hres).2⟩

/-- Catalog with one integer-typed and one boolean-typed rule. -/
def c10Catalog : List ((String × String) × MappingRule) :=
  MappingCatalog.load [⟨"E1", "M1", "OBJ.I", "int"⟩, ⟨"E2", "M2", "OBJ.B", "bool"⟩]

/-- Payload whose `Equip.Tag` is present but is the empty string. -/
def payloadEmptyTag : List (String × PyObj) :=
  [("Equip.Tag", .scalar (.vStr "")), ("Message.ID", .scalar (.vStr "M1")),
    ("VALUE", .scalar (.vInt 5))]

/-- Frame whose `Equip.Tag` is present but empty. -/
def frameEmptyTag : IngressEvent := ⟨"te", [("payload", .dict payloadEmptyTag)]⟩

/-- Payload whose `VALUE` is the falsy integer `0`. -/
def payloadValueZero : List (String × PyObj) :=
  [("Equip.Tag", .scalar (.vStr "E1")), ("Message.ID", .scalar (.vStr "M1")),
    ("VALUE", .scalar (.vInt 0))]

/-- Frame whose `VALUE` is the falsy integer `0`, mapped by an `int` rule. -/
def frameValueZero : IngressEvent := ⟨"tz", [("payload", .dict payloadValueZero)]⟩

/-- Frame whose `VALUE` is the falsy boolean `False`, mapped by a `bool`
rule. -/
def frameValueFalse : IngressEvent :=
  ⟨"tf", [("payload", .dict [("Equip.Tag", .scalar (.vStr "E2")),
    ("Message.ID", .scalar (.vStr "M2")), ("VALUE", .scalar (.vBool false))])]⟩

/-- C10: the required-field check of `map_event` is Python truthiness for
`Equip.Tag` and `Message.ID` and an `is not None` test for `VALUE`: any
successful mapping has truthy `Equip.Tag` and `Message.ID` and a
non-null `VALUE`; a frame whose `Equip.Tag` is present but empty is
dropped as an invalid payload (error counter incremented); a frame whose
`VALUE` is the falsy `0` or `False` passes the check and is mapped. -/
theorem C10_required_field_truthiness (catalog : List ((String × String) × MappingRule))
    (event : IngressEvent) (payload : List (String × PyObj)) :
    (∀ m, dictGet event.raw "payload" = some (.dict payload) →
      (MappingLayer.map_event catalog event).result = some m →
      optTruthy (dictGet payload "Equip.Tag") = true ∧
      optTruthy (dictGet payload "Message.ID") = true ∧
      valueIsPresent (dictGet payload "VALUE") = true) ∧
    (MappingLayer.map_event c10Catalog frameEmptyTag).result = none ∧
    (MappingLayer.map_event c10Catalog frameEmptyTag).errorInc = 1 ∧
    (MappingLayer.map_event c10Catalog frameValueZero).result =
      some ⟨"tz", "OBJ.I", .scalar (.vInt 0), "int"⟩ ∧
    (MappingLayer.map_event c10Catalog frameValueFalse).result =
      some ⟨"tf", "OBJ.B", .scalar (.vBool false), "bool"⟩ := by
  refine ⟨?_, rfl, rfl, rfl, rfl⟩
  intro m hp hm
  by_cases hok : (optTruthy (dictGet payload "Equip.Tag") &&
      optTruthy (dictGet payload "Message.ID") &&
      valueIsPresent (dictGet payload "VALUE")) = true
  · rcases Bool.and_eq_true_iff.mp hok with ⟨h12, h3⟩
    rcases Bool.and_eq_true_iff.mp h12 with ⟨h1, h2⟩
    exact ⟨h1, h2, h3⟩
  · exfalso
    unfold MappingLayer.map_event at hm
    rw [hp] at hm
    simp only [Option.getD_some, Bool.not_eq_true] at hm
    rw [Bool.not_eq_true] at hok
    simp only [hok] at hm
    exact Option.noConfusion hm

theorem C10_required_field_truthiness_witness :
    optTruthy (dictGet payloadValueZero "Equip.Tag") = true ∧
    optTruthy (dictGet payloadValueZero "Message.ID") = true ∧
    valueIsPresent (dictGet payloadValueZero "VALUE") = true := by
  exact (C10_required_field_truthiness c10Catalog frameValueZero
    payloadValueZero).1 ⟨"tz", "OBJ.I", .scalar (.vInt 0), "int"⟩ rfl rfl

/-- Catalog with a single boolean-typed rule. -/
def c2Catalog : List ((String × String) × MappingRule) :=
  MappingCatalog.load [⟨"GPS001", "GLL001", "GPS.MODE", "bool"⟩]

/-- Frame carrying the string `"2"` as `VALUE` for the boolean rule. -/
def frameBoolTwo : IngressEvent :=
  ⟨"t2", [("payload", .dict [("Equip.Tag", .scalar (.vStr "GPS001")),
    ("Message.ID", .scalar (.vStr "GLL001")), ("VALUE", .scalar (.vStr "2"))])]⟩

/-- Frame carrying the unrecognized string `"banana"` as `VALUE` for the
boolean rule. -/
def frameBoolBanana : IngressEvent :=
  ⟨"t2b", [("payload", .dict [("Equip.Tag", .scalar (.vStr "GPS001")),
    ("Message.ID", .scalar (.vStr "GLL001")), ("VALUE", .scalar (.vStr "banana"))])]⟩

/-- C2 counterexample: the string `"2"` is in neither of the claim's two
recognized string sets, so per the claim the event should be dropped with
`coercion_failed`; instead `map_event` emits a `MappedEvent` whose value
is `False` and increments no error counter. -/
theorem C2_counterexample_string_two_not_dropped :
    (MappingLayer.map_event c2Catalog frameBoolTwo).result =
      some ⟨"t2", "GPS.MODE", .scalar (.vBool false), "bool"⟩ ∧
    (MappingLayer.map_event c2Catalog frameBoolTwo).errorInc = 0 ∧
    (MappingLayer.map_event c2Catalog frameBoolTwo).resolverCalls =
      [⟨"t2", "GPS.MODE", .scalar (.vBool false), "bool"⟩] := ⟨rfl, rfl, rfl⟩

/-- C2 amended: for a boolean-typed rule the cast accepts native booleans
unchanged; a string maps to true exactly when its lower-cased form is one
of `"true","1","yes","on"` and to false otherwise (so `"false","0","no",
"off"` map to false, but so do `"2"` and `"banana"`); a number maps to
false iff it is zero; the cast never fails for any value, so no event
with a boolean rule is ever dropped with `coercion_failed` — an
unrecognized string yields a `MappedEvent` with value `False` instead. -/
theorem C2_amended_boolean_cast (s : String) (b : Bool) (n : Int) (q : ℚ)
    (v : PyObj) :
    castValue (.scalar (.vStr s)) "bool" =
      some (.scalar (.vBool (trueStrings.contains (asciiLower s)))) ∧
    castValue (.scalar (.vBool b)) "bool" = some (.scalar (.vBool b)) ∧
    castValue (.scalar (.vInt n)) "bool" = some (.scalar (.vBool (n != 0))) ∧
    castValue (.scalar (.vFloat q)) "bool" = some (.scalar (.vBool (q != 0))) ∧
    (castValue v "bool").isSome = true ∧
    castValue (.scalar (.vStr "TRUE")) "bool" = some (.scalar (.vBool true)) ∧
    castValue (.scalar (.vStr "Yes")) "bool" = some (.scalar (.vBool true)) ∧
    castValue (.scalar (.vStr "on")) "bool" = some (.scalar (.vBool true)) ∧
    castValue (.scalar (.vStr "1")) "bool" = some (.scalar (.vBool true)) ∧
    castValue (.scalar (.vStr "false")) "bool" = some (.scalar (.vBool false)) ∧
    castValue (.scalar (.vStr "0")) "bool" = some (.scalar (.vBool false)) ∧
    castValue (.scalar (.vStr "No")) "bool" = some (.scalar (.vBool false)) ∧
    castValue (.scalar (.vStr "OFF")) "bool" = some (.scalar (.vBool false)) ∧
    (MappingLayer.map_event c2Catalog frameBoolBanana).result =
      some ⟨"t2b", "GPS.MODE", .scalar (.vBool false), "bool"⟩ := by
  refine ⟨rfl, ?_, rfl, rfl, ?_, rfl, rfl, rfl, rfl, rfl, rfl, rfl, rfl, rfl⟩
  · cases b <;> rfl
  · rcases v with entries | sv
    · rfl
    · cases sv <;> rfl

/-- Catalog with a single integer-typed rule. -/
def c3Catalog : List ((String × String) × MappingRule) :=
  MappingCatalog.load [⟨"GPS001", "GLL001", "GPS.LAT", "int"⟩]

/-- Frame carrying the float `37.5` as `VALUE` for the integer rule. -/
def frameIntFloat : IngressEvent :=
  ⟨"t3", [("payload", .dict [("Equip.Tag", .scalar (.vStr "GPS001")),
    ("Message.ID", .scalar (.vStr "GLL001")),
    ("VALUE", .scalar (.vFloat (mkRat 75 2)))])]⟩

/-- Frame carrying the string `"37.5"` as `VALUE` for the integer rule. -/
def frameIntStr : IngressEvent :=
  ⟨"t3s", [("payload", .dict [("Equip.Tag", .scalar (.vStr "GPS001")),
    ("Message.ID", .scalar (.vStr "GLL001")), ("VALUE", .scalar (.vStr "37.5"))])]⟩

/-- C3 counterexample: the numeric `VALUE` 37.5 under an integer-typed
rule is not dropped; `int(37.5)` truncates and `map_event` emits a
`MappedEvent` whose value is the truncated integer 37, incrementing no
error counter. -/
theorem C3_counterexample_float_truncated :
    (MappingLayer.map_event c3Catalog frameIntFloat).result =
      some ⟨"t3", "GPS.LAT", .scalar (.vInt 37), "int"⟩ ∧
    (MappingLayer.map_event c3Catalog frameIntFloat).errorInc = 0 := ⟨rfl, rfl⟩

lemma digitsToNatAux_none (c : Char) (hd : c.isDigit = false) :
    ∀ l, c ∈ l → ∀ acc, digitsToNatAux acc l = none := by
  intro l
  induction l with
  | nil => intro hc; cases hc
  | cons a rest ih =>
      intro hc acc
      rcases List.mem_cons.mp hc with h | h
      · unfold digitsToNatAux
        rw [← h, hd]
        simp
      · unfold digitsToNatAux
        by_cases ha : a.isDigit
        · rw [ha]
          simp only [if_true]
          exact ih h _
        · simp [ha]

lemma digitsToNat_none (c : Char) (hd : c.isDigit = false) :
    ∀ l, c ∈ l → digitsToNat l = none := by
  intro l hc
  cases l with
  | nil => rfl
  | cons a rest => exact digitsToNatAux_none c hd (a :: rest) hc 0

lemma parseIntChars_dot (l : List Char) (hc : '.' ∈ l) : parseIntChars l = none := by
  unfold parseIntChars
  split
  · next rest =>
      rcases List.mem_cons.mp hc with h | h
      · exact absurd h (by decide)
      · rw [digitsToNat_none '.' (by decide) rest h]
        rfl
  · next rest =>
      rcases List.mem_cons.mp hc with h | h
      · exact absurd h (by decide)
      · rw [digitsToNat_none '.' (by decide) rest h]
        rfl
  · rw [digitsToNat_none '.' (by decide) l hc]
    rfl

/-- C3 amended: under an integer-typed rule a string `VALUE` is parsed as
a decimal integer, so any string containing a decimal point — in
particular `"37.5"` — fails the cast and the event is dropped with one
error increment; a numeric (float) `VALUE`, however, is truncated toward
zero by `int(value)`, so `37.5` yields a `MappedEvent` whose value is the
truncated integer 37 rather than being dropped. -/
theorem C3_amended_integer_cast (q : ℚ) (s : String) :
    castValue (.scalar (.vFloat q)) "int" =
      some (.scalar (.vInt (ratTruncToInt q))) ∧
    ('.' ∈ s.data → castValue (.scalar (.vStr s)) "int" = none) ∧
    (MappingLayer.map_event c3Catalog frameIntStr).result = none ∧
    (MappingLayer.map_event c3Catalog frameIntStr).errorInc = 1 := by
  refine ⟨rfl, ?_, rfl, rfl⟩
  intro hdot
  show (pyIntOf (.scalar (.vStr s))).map (fun n => PyObj.scalar (.vInt n)) = none
  show (parseIntChars s.data).map (fun n => PyObj.scalar (.vInt n)) = none
  rw [parseIntChars_dot s.data hdot]
  rfl

theorem C3_amended_integer_cast_witness :
    castValue (.scalar (.vStr "37.5")) "int" = none ∧
    castValue (.scalar (.vFloat (mkRat 75 2))) "int" =
      some (.scalar (.vInt 37)) := by
  have h := C3_amended_integer_cast (mkRat 75 2) "37.5"
  exact ⟨h.2.1 (by decide), h.1⟩
